import Mathlib

/-!
Shallow embedding of the homework-status bot (src/homework.py, src/exceptions.py).

JSON values decoded by the `json` module are modelled by `JValue`; Python dicts
become association lists with string keys (JSON object keys are strings, and
`json.loads` produces unique keys, looked up first-match).  The exception
classes of src/exceptions.py plus the built-in `TypeError` become the `PyError`
type; a raising Python function becomes a Lean function into `Except PyError`.
The network and the Telegram transport are inputs: one `HttpResult` per fetch
and one `Option TransportError` per attempted send.  Logging side effects that
the specification's claims mention (critical, error and debug entries) are
returned explicitly as `LogEntry` lists; the purely diagnostic debug entries of
the request lifecycle inside `get_api_answer` are not modelled.
-/

namespace HomeworkBot

/-- A decoded JSON value as produced by Python's `json` module: `None`,
booleans, integers, strings, lists, and string-keyed objects. -/
inductive JValue : Type where
  | null : JValue
  | bool (b : Bool) : JValue
  | int (n : Int) : JValue
  | str (s : String) : JValue
  | list (items : List JValue) : JValue
  | dict (entries : List (String × JValue)) : JValue
deriving Repr

/-- Python's rendering of `type(v)` for a decoded JSON value, as interpolated
by the f-strings of `check_response`. -/
def typeName : JValue → String
  | .null => "<class 'NoneType'>"
  | .bool _ => "<class 'bool'>"
  | .int _ => "<class 'int'>"
  | .str _ => "<class 'str'>"
  | .list _ => "<class 'list'>"
  | .dict _ => "<class 'dict'>"

mutual

/-- Python's `repr(v)` for a decoded JSON value (strings quoted, containers
rendered recursively), used by `str` on non-string values. -/
def pyRepr : JValue → String
  | .null => "None"
  | .bool true => "True"
  | .bool false => "False"
  | .int n => toString n
  | .str s => "\x27" ++ s ++ "\x27"
  | .list items => "[" ++ pyReprItems items ++ "]"
  | .dict entries => "\x7b" ++ pyReprEntries entries ++ "\x7d"

/-- Comma-separated `repr` of a list's items. -/
def pyReprItems : List JValue → String
  | [] => ""
  | [v] => pyRepr v
  | v :: rest => pyRepr v ++ ", " ++ pyReprItems rest

/-- Comma-separated `repr` of a dict's entries. -/
def pyReprEntries : List (String × JValue) → String
  | [] => ""
  | [(k, v)] => "\x27" ++ k ++ "\x27: " ++ pyRepr v
  | (k, v) :: rest => "\x27" ++ k ++ "\x27: " ++ pyRepr v ++ ", " ++ pyReprEntries rest

end

/-- Python's `str(v)`, as used by f-string interpolation: the string itself
for strings, `repr` otherwise. -/
def pyStr : JValue → String
  | .str s => s
  | v => pyRepr v

/-- Whether Python can hash the value: lists and dicts are unhashable, so
using one as the left operand of `in` on a dict raises `TypeError`. -/
def hashable : JValue → Bool
  | .list _ => false
  | .dict _ => false
  | _ => true

/-- The quoted type name in Python's `unhashable type: '...'` message. -/
def unhashableTypeName : JValue → String
  | .list _ => "\x27list\x27"
  | .dict _ => "\x27dict\x27"
  | _ => ""

/-- The exceptions raised by src/homework.py: the project's classes from
src/exceptions.py together with the built-in `TypeError` raised by
`check_response` and by an unhashable dict-membership test. -/
inductive PyError : Type where
  | typeError (msg : String)
  | endpointUnavailableError (msg : String)
  | jsonDecodeError (msg : String)
  | missingAPIKeyError (msg : String)
  | apiResponseError (msg : String)
  | unexpectedHomeworkStatusError (msg : String)
  | missingTokensError (msg : String)
deriving Repr, DecidableEq

/-- Python's `str(error)` for each of these exception classes: the message the
exception was constructed with. -/
def errMsg : PyError → String
  | .typeError m => m
  | .endpointUnavailableError m => m
  | .jsonDecodeError m => m
  | .missingAPIKeyError m => m
  | .apiResponseError m => m
  | .unexpectedHomeworkStatusError m => m
  | .missingTokensError m => m

/-- The exceptions `send_message` catches: `telebot.apihelper.ApiException`
and `requests.exceptions.RequestException`, carrying their `str`. -/
inductive TransportError : Type where
  | apiException (msg : String)
  | requestException (msg : String)
deriving Repr, DecidableEq

/-- Python's `str` of a caught transport exception. -/
def trMsg : TransportError → String
  | .apiException m => m
  | .requestException m => m

/-- A log record, keeping the pieces the claims mention: severity and message. -/
inductive LogLevel : Type where
  | debug
  | error
  | critical
deriving Repr, DecidableEq

/-- One emitted log entry. -/
structure LogEntry : Type where
  level : LogLevel
  msg : String
deriving Repr, DecidableEq

/-- The fixed verdict table `HOMEWORK_VERDICTS` of src/homework.py. -/
def HOMEWORK_VERDICTS : List (String × String) :=
  [("approved", "Работа проверена: ревьюеру всё понравилось. Ура!"),
   ("reviewing", "Работа взята на проверку ревьюером."),
   ("rejected", "Работа проверена: у ревьюера есть замечания.")]

/-- Python's `value in HOMEWORK_VERDICTS` followed by indexing, for a hashable
value: only a string equal to one of the keys is a member. -/
def verdictFor : JValue → Option String
  | .str s => HOMEWORK_VERDICTS.lookup s
  | _ => none

/-- The three environment variables read at module load. `none` models an
unset variable, `some ""` an empty one; both are falsy in `check_tokens`. -/
structure Config : Type where
  practicum_token : Option String
  telegram_token : Option String
  telegram_chat_id : Option String

/-- Python truthiness test `not token_value` for an optional string. -/
def falsy : Option String → Bool
  | none => true
  | some s => s.isEmpty

/-- `check_tokens` of src/homework.py: collects the names of every falsy
token, and if any is missing logs critically and raises `MissingTokensError`
whose message joins all missing names. -/
def check_tokens (cfg : Config) : Except PyError Unit × List LogEntry :=
  let tokens : List (String × Option String) :=
    [("PRACTICUM_TOKEN", cfg.practicum_token),
     ("TELEGRAM_TOKEN", cfg.telegram_token),
     ("TELEGRAM_CHAT_ID", cfg.telegram_chat_id)]
  let missing_tokens := (tokens.filter (fun kv => falsy kv.2)).map (fun kv => kv.1)
  if missing_tokens.isEmpty then
    (.ok (), [])
  else
    let error_message :=
      "Отсутствуют обязательные переменные окружения: " ++
        String.intercalate ", " missing_tokens
    (.error (.missingTokensError error_message), [⟨.critical, error_message⟩])

/-- The Telegram call `bot.send_message(...)`: either completes, or raises the
transport exception the environment injects. -/
def botSendMessage (raised : Option TransportError) : Except TransportError Unit :=
  match raised with
  | none => .ok ()
  | some e => .error e

/-- `send_message` of src/homework.py: tries the transport call and catches
`ApiException` and `RequestException`, returning `true` on success and `false`
(with an error log) on a caught exception. -/
def send_message (message : String) (raised : Option TransportError) :
    Bool × List LogEntry :=
  let startLog : LogEntry := ⟨.debug, "Начинаем отправку сообщения: " ++ message⟩
  match botSendMessage raised with
  | .ok _ =>
      (true, [startLog, ⟨.debug, "Сообщение отправлено: " ++ message⟩])
  | .error e =>
      (false, [startLog, ⟨.error, "Ошибка при отправке сообщения: " ++ trMsg e⟩])

/-- The environment's answer to one `requests.get` call: a raised
`RequestException`, or a response with a status code and a body that either
decodes to JSON or fails to. -/
inductive HttpResult : Type where
  | netError (msg : String)
  | response (status : Nat) (body : Except String JValue)
deriving Repr

/-- `get_api_answer` of src/homework.py: wraps a `RequestException` in
`EndpointUnavailableError`, rejects any status other than 200, wraps a JSON
decode failure in the project's `JSONDecodeError`, and otherwise returns the
decoded value unvalidated. -/
def get_api_answer (timestamp : JValue) (result : HttpResult) : Except PyError JValue :=
  let _payload := [("from_date", timestamp)]
  match result with
  | .netError e =>
      .error (.endpointUnavailableError ("Ошибка при запросе к API: " ++ e))
  | .response status body =>
      if status ≠ 200 then
        .error (.endpointUnavailableError
          ("Эндпоинт недоступен. Код ответа: " ++ toString status))
      else
        match body with
        | .error e => .error (.jsonDecodeError ("Ошибка при обработке ответа API: " ++ e))
        | .ok v => .ok v

/-- `check_response` of src/homework.py: demands a dict, then a `homeworks`
key, then that its value be a list, which it returns unchanged. -/
def check_response (response : JValue) : Except PyError (List JValue) :=
  match response with
  | .dict entries =>
      match entries.lookup "homeworks" with
      | none => .error (.missingAPIKeyError "Отсутствует ключ \"homeworks\" в ответе API")
      | some hw =>
          match hw with
          | .list xs => .ok xs
          | v => .error (.typeError
              ("homeworks не является списком. Получен тип: " ++ typeName v))
  | v => .error (.typeError
      ("Ответ API не соответствует ожидаемой структуре. Получен тип: " ++ typeName v))

/-- `parse_status` of src/homework.py: demands a dict with `homework_name` and
`status` keys; an unhashable status value makes the membership test
`homework_status not in HOMEWORK_VERDICTS` raise `TypeError`, a hashable one
absent from the table raises `UnexpectedHomeworkStatusError`, and a table hit
yields the formatted status-change message. -/
def parse_status (homework : JValue) : Except PyError String :=
  match homework with
  | .dict entries =>
      match entries.lookup "homework_name" with
      | none => .error (.missingAPIKeyError
          "Отсутствует ключ \"homework_name\" в информации о домашней работе")
      | some homework_name =>
          match entries.lookup "status" with
          | none => .error (.missingAPIKeyError
              "Отсутствует ключ \"status\" в информации о домашней работе")
          | some homework_status =>
              if hashable homework_status then
                match verdictFor homework_status with
                | none => .error (.unexpectedHomeworkStatusError
                    ("Неизвестный статус работы: " ++ pyStr homework_status))
                | some verdict =>
                    .ok ("Изменился статус проверки работы \"" ++ pyStr homework_name ++
                      "\". " ++ verdict)
              else
                .error (.typeError ("unhashable type: " ++ unhashableTypeName homework_status))
  | _ => .error (.apiResponseError "Данные о домашней работе не являются словарем")

/-- Python's `response.get(key, default)` on a decoded value (a dict whenever
the loop reaches this call, `check_response` having accepted it). -/
def jget (v : JValue) (key : String) (dflt : JValue) : JValue :=
  match v with
  | .dict entries => (entries.lookup key).getD dflt
  | _ => dflt

/-- The two loop variables of `main`: `current_timestamp` (kept as a JSON
value because the code assigns `response.get('current_date', ...)` to it with
no type check) and `last_error_message`. -/
structure LoopState : Type where
  current_timestamp : JValue
  last_error_message : Option String
deriving Repr

/-- The environment of one loop iteration: the HTTP answer to the fetch, and
the transport outcome of the cycle's (at most one) send attempt. -/
structure CycleInput : Type where
  http : HttpResult
  sendRaised : Option TransportError
deriving Repr

/-- What one iteration of the loop body did: the new state, the messages
passed to `send_message`, and the log entries emitted by the driver and the
notifier. -/
structure CycleResult : Type where
  state : LoopState
  sends : List String
  logs : List LogEntry
deriving Repr

/-- The body of `main`'s `try` block: fetch, validate, and — when the
homework list is non-empty — interpret the first record and send it; a
successful send advances the cursor to the response's `current_date`
(defaulting to the old cursor) and clears the last-error cache; an empty list
only logs at debug level. -/
def tryCycle (s : LoopState) (inp : CycleInput) :
    Except PyError (LoopState × List String × List LogEntry) :=
  match get_api_answer s.current_timestamp inp.http with
  | .error e => .error e
  | .ok response =>
      match check_response response with
      | .error e => .error e
      | .ok homeworks =>
          match homeworks with
          | [] => .ok (s, [], [⟨.debug, "Нет новых статусов"⟩])
          | homework :: _ =>
              match parse_status homework with
              | .error e => .error e
              | .ok message =>
                  let result := send_message message inp.sendRaised
                  if result.1 then
                    .ok (⟨jget response "current_date" s.current_timestamp, none⟩,
                      [message], result.2)
                  else
                    .ok (s, [message], result.2)

/-- One full iteration of `main`'s `while` loop (the fixed sleep aside): the
`try` body, with the `except Exception` handler composing the failure message,
sending it unless it equals the cached last error message, caching it, and
logging it at error level unconditionally. -/
def mainStep (s : LoopState) (inp : CycleInput) : CycleResult :=
  match tryCycle s inp with
  | .ok (s1, sends, logs) => ⟨s1, sends, logs⟩
  | .error e =>
      let message := "Сбой в работе программы: " ++ errMsg e
      if some message ≠ s.last_error_message then
        ⟨⟨s.current_timestamp, some message⟩, [message],
          (send_message message inp.sendRaised).2 ++ [⟨.error, message⟩]⟩
      else
        ⟨s, [], [⟨.error, message⟩]⟩

/-- A finite prefix of the loop: the final state and each iteration's record. -/
def runCycles (s : LoopState) : List CycleInput → LoopState × List CycleResult
  | [] => (s, [])
  | inp :: rest =>
      let r := mainStep s inp
      let (final, rs) := runCycles r.state rest
      (final, r :: rs)

/-- Every state a finite prefix of the loop passes through, the initial one
included. -/
def runStates (s : LoopState) : List CycleInput → List LoopState
  | [] => [s]
  | inp :: rest => s :: runStates (mainStep s inp).state rest

/-- The outcome of a bounded run of `main`. -/
structure RunResult : Type where
  outcome : Except PyError LoopState
  cycles : List CycleResult
  logs : List LogEntry
deriving Repr

/-- `main` of src/homework.py over a finite prefix of the infinite loop:
checks the tokens first (a failure never reaches the loop), initialises the
cursor to the integer start time and the last-error cache to `None`, then
iterates the loop body. -/
def mainRun (cfg : Config) (startTime : Int) (inputs : List CycleInput) : RunResult :=
  match check_tokens cfg with
  | (.error e, logs) => ⟨.error e, [], logs⟩
  | (.ok _, logs) =>
      let (final, rs) := runCycles ⟨.int startTime, none⟩ inputs
      ⟨.ok final, rs, logs⟩

/-- Claim-side condition for a "successfully notified" cycle: the fetch, the
validation and the interpretation of the first record all succeed, the list is
non-empty, and the send completes; yields the fetched response. -/
def notifiedResponse (s : LoopState) (inp : CycleInput) : Option JValue :=
  match get_api_answer s.current_timestamp inp.http with
  | .error _ => none
  | .ok response =>
      match check_response response with
      | .error _ => none
      | .ok [] => none
      | .ok (homework :: _) =>
          match parse_status homework with
          | .error _ => none
          | .ok _ => if inp.sendRaised = none then some response else none

/-- Whether a value is a Python integer. -/
def isInt : JValue → Bool
  | .int _ => true
  | _ => false

/-- The documented response shape's constraint on `current_date`: when the
fetch decodes to an object carrying a `current_date` key, that value is an
integer. -/
def currentDateIntOk (inp : CycleInput) : Bool :=
  match inp.http with
  | .response _ (.ok (.dict entries)) =>
      match entries.lookup "current_date" with
      | some v => isInt v
      | none => true
  | _ => true

/-- Claim-side list of exactly the required variable names whose value is
missing or empty, in declaration order. -/
def missingNames (cfg : Config) : List String :=
  (if falsy cfg.practicum_token then ["PRACTICUM_TOKEN"] else []) ++
  (if falsy cfg.telegram_token then ["TELEGRAM_TOKEN"] else []) ++
  (if falsy cfg.telegram_chat_id then ["TELEGRAM_CHAT_ID"] else [])

/-- The message `check_tokens` raises for a given missing subset. -/
def missingMsg (cfg : Config) : String :=
  "Отсутствуют обязательные переменные окружения: " ++
    String.intercalate ", " (missingNames cfg)

/-- Whether a `parse_status` outcome is an unexpected-status error. -/
def isUnexpectedStatusError : Except PyError String → Bool
  | .error (.unexpectedHomeworkStatusError _) => true
  | _ => false

/-- Whether an `Except` outcome is a success. -/
def isOkResult {ε α : Type} : Except ε α → Bool
  | .ok _ => true
  | .error _ => false

/-! Theorems settling the specification's claims. -/

/-- C2 (amended): a record with both keys yields the exact formatted message
when the status is a table key; a hashable status outside the table raises the
unexpected-status error naming it; an unhashable status raises `TypeError`. -/
theorem parse_status_spec (entries : List (String × JValue)) (name status : JValue)
    (hn : entries.lookup "homework_name" = some name)
    (hs : entries.lookup "status" = some status) :
    (∀ s verdict, status = .str s → HOMEWORK_VERDICTS.lookup s = some verdict →
      parse_status (.dict entries) =
        .ok ("Изменился статус проверки работы \"" ++ pyStr name ++ "\". " ++ verdict)) ∧
    (hashable status = true → verdictFor status = none →
      parse_status (.dict entries) =
        .error (.unexpectedHomeworkStatusError
          ("Неизвестный статус работы: " ++ pyStr status))) ∧
    (hashable status = false →
      parse_status (.dict entries) =
        .error (.typeError ("unhashable type: " ++ unhashableTypeName status))) := by
  refine ⟨?_, ?_, ?_⟩
  · rintro s verdict rfl hv
    simp [parse_status, hn, hs, hashable, verdictFor, hv]
  · intro hh hv
    simp [parse_status, hn, hs, hh, hv]
  · intro hh
    simp [parse_status, hn, hs, hh]

theorem parse_status_spec_witness :
    parse_status (.dict [("homework_name", .str "X"), ("status", .str "approved")]) =
      .ok "Изменился статус проверки работы \"X\". Работа проверена: ревьюеру всё понравилось. Ура!" := by
  have h := (parse_status_spec [("homework_name", .str "X"), ("status", .str "approved")]
    (.str "X") (.str "approved") rfl rfl).1 "approved"
    "Работа проверена: ревьюеру всё понравилось. Ура!" rfl rfl
  exact h

/-- C2, as stated, fails: a record whose `status` is a list is not in the
verdict table, yet `parse_status` raises `TypeError` (Python's unhashable
membership test), not the unexpected-status error. -/
theorem parse_status_unhashable_cex :
    parse_status (.dict [("homework_name", .str "X"), ("status", .list [])]) =
      .error (.typeError "unhashable type: 'list'") ∧
    isUnexpectedStatusError
      (parse_status (.dict [("homework_name", .str "X"), ("status", .list [])])) = false :=
  ⟨rfl, rfl⟩

/-- C3: the response validator rejects a non-mapping with a type error naming
the received type, a mapping without `homeworks` with a missing-key error, a
non-list `homeworks` with a type error naming its type, and otherwise returns
the homework list unchanged, empty included. -/
theorem check_response_spec (v : JValue) :
    ((∀ entries, v ≠ .dict entries) →
      check_response v = .error (.typeError
        ("Ответ API не соответствует ожидаемой структуре. Получен тип: " ++ typeName v))) ∧
    (∀ entries, v = .dict entries →
      (entries.lookup "homeworks" = none →
        check_response v = .error (.missingAPIKeyError
          "Отсутствует ключ \"homeworks\" в ответе API")) ∧
      (∀ w, entries.lookup "homeworks" = some w →
        ((∀ xs, w ≠ .list xs) →
          check_response v = .error (.typeError
            ("homeworks не является списком. Получен тип: " ++ typeName w))) ∧
        (∀ xs, w = .list xs → check_response v = .ok xs))) := by
  constructor
  · intro hnd
    cases v with
    | dict entries => exact absurd rfl (hnd entries)
    | null => rfl
    | bool b => rfl
    | int n => rfl
    | str s => rfl
    | list items => rfl
  · rintro entries rfl
    constructor
    · intro hnone
      simp [check_response, hnone]
    · intro w hw
      constructor
      · intro hnl
        cases w with
        | list xs => exact absurd rfl (hnl xs)
        | null => simp [check_response, hw]
        | bool b => simp [check_response, hw]
        | int n => simp [check_response, hw]
        | str s => simp [check_response, hw]
        | dict d => simp [check_response, hw]
      · rintro xs rfl
        simp [check_response, hw]

theorem check_response_spec_witness :
    check_response (.list []) = .error (.typeError
      "Ответ API не соответствует ожидаемой структуре. Получен тип: <class 'list'>") ∧
    check_response (.dict []) = .error (.missingAPIKeyError
      "Отсутствует ключ \"homeworks\" в ответе API") ∧
    check_response (.dict [("homeworks", .int 3)]) = .error (.typeError
      "homeworks не является списком. Получен тип: <class 'int'>") ∧
    check_response (.dict [("homeworks", .list [.int 1])]) = .ok [.int 1] := by
  refine ⟨?_, ?_, ?_, ?_⟩
  · exact (check_response_spec (.list [])).1 (fun entries h => by cases h)
  · exact ((check_response_spec (.dict [])).2 [] rfl).1 rfl
  · exact (((check_response_spec (.dict [("homeworks", .int 3)])).2 _ rfl).2 (.int 3) rfl).1
      (fun xs h => by cases h)
  · exact (((check_response_spec (.dict [("homeworks", .list [.int 1])])).2 _ rfl).2
      (.list [.int 1]) rfl).2 [.int 1] rfl

/-- C4: the fetcher wraps a network failure and a non-200 status in
endpoint-unavailable errors, wraps a JSON decode failure of a 200 body in a
malformed-response error, and returns a decoded 200 body unchanged. -/
theorem get_api_answer_spec (t : JValue) :
    (∀ m, get_api_answer t (.netError m) =
      .error (.endpointUnavailableError ("Ошибка при запросе к API: " ++ m))) ∧
    (∀ status body, status ≠ 200 → get_api_answer t (.response status body) =
      .error (.endpointUnavailableError
        ("Эндпоинт недоступен. Код ответа: " ++ toString status))) ∧
    (∀ m, get_api_answer t (.response 200 (.error m)) =
      .error (.jsonDecodeError ("Ошибка при обработке ответа API: " ++ m))) ∧
    (∀ v, get_api_answer t (.response 200 (.ok v)) = .ok v) := by
  refine ⟨fun m => rfl, ?_, fun m => rfl, fun v => rfl⟩
  intro status body h
  simp [get_api_answer, h]

theorem get_api_answer_spec_witness :
    get_api_answer (.int 0) (.netError "conn refused") =
      .error (.endpointUnavailableError "Ошибка при запросе к API: conn refused") ∧
    get_api_answer (.int 0) (.response 500 (.ok .null)) =
      .error (.endpointUnavailableError "Эндпоинт недоступен. Код ответа: 500") ∧
    get_api_answer (.int 0) (.response 200 (.error "bad json")) =
      .error (.jsonDecodeError "Ошибка при обработке ответа API: bad json") ∧
    get_api_answer (.int 0) (.response 200 (.ok (.list []))) = .ok (.list []) := by
  refine ⟨?_, ?_, ?_, ?_⟩
  · exact (get_api_answer_spec (.int 0)).1 "conn refused"
  · exact (get_api_answer_spec (.int 0)).2.1 500 (.ok .null) (by decide)
  · exact (get_api_answer_spec (.int 0)).2.2.1 "bad json"
  · exact (get_api_answer_spec (.int 0)).2.2.2 (.list [])

/-- C5: `check_tokens` succeeds silently when all three variables are present
and non-empty; otherwise it raises `MissingTokensError` naming exactly the
missing subset, logs it critically, and `main` stops before its loop runs a
single iteration. -/
theorem check_tokens_spec (cfg : Config) :
    (missingNames cfg = [] → check_tokens cfg = (.ok (), [])) ∧
    (missingNames cfg ≠ [] →
      check_tokens cfg =
        (.error (.missingTokensError (missingMsg cfg)), [⟨.critical, missingMsg cfg⟩]) ∧
      ∀ t inputs, mainRun cfg t inputs =
        ⟨.error (.missingTokensError (missingMsg cfg)), [], [⟨.critical, missingMsg cfg⟩]⟩) := by
  have key : check_tokens cfg =
      if missingNames cfg = [] then ((Except.ok ()), ([] : List LogEntry))
      else (.error (.missingTokensError (missingMsg cfg)), [⟨.critical, missingMsg cfg⟩]) := by
    unfold check_tokens missingMsg missingNames
    cases hp : falsy cfg.practicum_token <;>
      cases ht : falsy cfg.telegram_token <;>
        cases hc : falsy cfg.telegram_chat_id <;>
          simp [hp, ht, hc, List.filter_cons]
  constructor
  · intro h
    rw [key, if_pos h]
  · intro h
    have hck : check_tokens cfg =
        (.error (.missingTokensError (missingMsg cfg)), [⟨.critical, missingMsg cfg⟩]) := by
      rw [key, if_neg h]
    refine ⟨hck, fun t inputs => ?_⟩
    simp [mainRun, hck]

theorem check_tokens_spec_witness :
    check_tokens ⟨some "a", some "b", some "c"⟩ = (.ok (), []) ∧
    check_tokens ⟨none, some "", some "x"⟩ =
      (.error (.missingTokensError
        "Отсутствуют обязательные переменные окружения: PRACTICUM_TOKEN, TELEGRAM_TOKEN"),
       [⟨.critical,
        "Отсутствуют обязательные переменные окружения: PRACTICUM_TOKEN, TELEGRAM_TOKEN"⟩]) ∧
    mainRun ⟨none, some "", some "x"⟩ 0 [⟨.netError "boom", none⟩] =
      ⟨.error (.missingTokensError
        "Отсутствуют обязательные переменные окружения: PRACTICUM_TOKEN, TELEGRAM_TOKEN"),
       [],
       [⟨.critical,
        "Отсутствуют обязательные переменные окружения: PRACTICUM_TOKEN, TELEGRAM_TOKEN"⟩]⟩ := by
  refine ⟨?_, ?_, ?_⟩
  · exact (check_tokens_spec ⟨some "a", some "b", some "c"⟩).1 rfl
  · exact ((check_tokens_spec ⟨none, some "", some "x"⟩).2 (by decide)).1
  · exact ((check_tokens_spec ⟨none, some "", some "x"⟩).2 (by decide)).2 0 [⟨.netError "boom", none⟩]

/-- C6: the notifier catches every transport exception, returning `false` with
an error log in that case and `true` exactly when the transport call completed
without raising; its result is a plain boolean, never a propagated exception. -/
theorem send_message_spec (message : String) (raised : Option TransportError) :
    ((send_message message raised).1 = true ↔ botSendMessage raised = .ok ()) ∧
    ((send_message message raised).1 = true ↔ raised = none) ∧
    (∀ e, raised = some e →
      send_message message raised =
        (false, [⟨.debug, "Начинаем отправку сообщения: " ++ message⟩,
                 ⟨.error, "Ошибка при отправке сообщения: " ++ trMsg e⟩])) := by
  cases raised with
  | none => exact ⟨by simp [send_message, botSendMessage], by simp [send_message, botSendMessage],
      fun e h => by cases h⟩
  | some e =>
      refine ⟨by simp [send_message, botSendMessage], by simp [send_message, botSendMessage], ?_⟩
      rintro e' he
      cases he
      rfl

theorem send_message_spec_witness :
    send_message "hi" (some (.apiException "boom")) =
      (false, [⟨.debug, "Начинаем отправку сообщения: hi"⟩,
               ⟨.error, "Ошибка при отправке сообщения: boom"⟩]) ∧
    (send_message "hi" none).1 = true := by
  constructor
  · exact (send_message_spec "hi" (some (.apiException "boom"))).2.2 (.apiException "boom") rfl
  · exact ((send_message_spec "hi" none).2.1).mpr rfl

lemma mainStep_ok (s : LoopState) (inp : CycleInput)
    (r : LoopState × List String × List LogEntry) (h : tryCycle s inp = .ok r) :
    mainStep s inp = ⟨r.1, r.2.1, r.2.2⟩ := by
  simp only [mainStep, h]

lemma mainStep_error_cursor (s : LoopState) (inp : CycleInput) (e : PyError)
    (h : tryCycle s inp = .error e) :
    (mainStep s inp).state.current_timestamp = s.current_timestamp := by
  simp only [mainStep, h]
  split <;> rfl

lemma mainStep_error_cache (s : LoopState) (inp : CycleInput) (e : PyError)
    (h : tryCycle s inp = .error e) :
    (mainStep s inp).state.last_error_message =
      some ("Сбой в работе программы: " ++ errMsg e) := by
  simp only [mainStep, h]
  split
  · rfl
  · next h2 => exact (not_ne_iff.mp h2).symm

lemma mainStep_error_sends (s : LoopState) (inp : CycleInput) (e : PyError)
    (h : tryCycle s inp = .error e) :
    (mainStep s inp).sends =
      if some ("Сбой в работе программы: " ++ errMsg e) ≠ s.last_error_message
      then ["Сбой в работе программы: " ++ errMsg e] else [] := by
  simp only [mainStep, h]
  split <;> rfl

lemma mainStep_error_log (s : LoopState) (inp : CycleInput) (e : PyError)
    (h : tryCycle s inp = .error e) :
    LogEntry.mk .error ("Сбой в работе программы: " ++ errMsg e) ∈ (mainStep s inp).logs := by
  simp only [mainStep, h]
  split <;> simp

lemma get_api_answer_ok_shape (t : JValue) (r : HttpResult) (v : JValue)
    (h : get_api_answer t r = .ok v) : r = .response 200 (.ok v) := by
  cases r with
  | netError m => simp [get_api_answer] at h
  | response status body =>
      by_cases hs : status = 200
      · subst hs
        cases body with
        | error m => simp [get_api_answer] at h
        | ok w =>
            simp [get_api_answer] at h
            rw [h]
      · simp [get_api_answer, hs] at h

lemma check_response_ok_shape (v : JValue) (xs : List JValue)
    (h : check_response v = .ok xs) :
    ∃ entries, v = .dict entries ∧ entries.lookup "homeworks" = some (.list xs) := by
  cases v with
  | dict entries =>
      refine ⟨entries, rfl, ?_⟩
      cases hl : entries.lookup "homeworks" with
      | none => simp [check_response, hl] at h
      | some w =>
          cases w with
          | list ys =>
              simp [check_response, hl] at h
              subst h
              rfl
          | null => simp [check_response, hl] at h
          | bool b => simp [check_response, hl] at h
          | int n => simp [check_response, hl] at h
          | str s => simp [check_response, hl] at h
          | dict d => simp [check_response, hl] at h
  | null => simp [check_response] at h
  | bool b => simp [check_response] at h
  | int n => simp [check_response] at h
  | str s => simp [check_response] at h
  | list items => simp [check_response] at h

/-- C1: the cursor moves exactly on a successfully notified cycle (non-empty
list, interpreted message, completed send), and then to the response's
`current_date` when present (keeping its old value when absent); every other
cycle leaves it unchanged. -/
theorem main_cursor_advance (s : LoopState) (inp : CycleInput) :
    (mainStep s inp).state.current_timestamp =
      match notifiedResponse s inp with
      | some response => jget response "current_date" s.current_timestamp
      | none => s.current_timestamp := by
  cases hga : get_api_answer s.current_timestamp inp.http with
  | error e =>
      have hN : notifiedResponse s inp = none := by simp [notifiedResponse, hga]
      have ht : tryCycle s inp = .error e := by simp [tryCycle, hga]
      rw [mainStep_error_cursor s inp e ht]
      simp [hN]
  | ok response =>
      cases hcr : check_response response with
      | error e =>
          have hN : notifiedResponse s inp = none := by simp [notifiedResponse, hga, hcr]
          have ht : tryCycle s inp = .error e := by simp [tryCycle, hga, hcr]
          rw [mainStep_error_cursor s inp e ht]
          simp [hN]
      | ok homeworks =>
          cases homeworks with
          | nil =>
              have hN : notifiedResponse s inp = none := by simp [notifiedResponse, hga, hcr]
              have ht : tryCycle s inp = .ok (s, [], [⟨.debug, "Нет новых статусов"⟩]) := by
                simp [tryCycle, hga, hcr]
              rw [mainStep_ok s inp _ ht]
              simp [hN]
          | cons hw rest =>
              cases hps : parse_status hw with
              | error e =>
                  have hN : notifiedResponse s inp = none := by
                    simp [notifiedResponse, hga, hcr, hps]
                  have ht : tryCycle s inp = .error e := by simp [tryCycle, hga, hcr, hps]
                  rw [mainStep_error_cursor s inp e ht]
                  simp [hN]
              | ok msg =>
                  cases hsr : inp.sendRaised with
                  | none =>
                      have hN : notifiedResponse s inp = some response := by
                        simp [notifiedResponse, hga, hcr, hps, hsr]
                      have ht : tryCycle s inp =
                          .ok (⟨jget response "current_date" s.current_timestamp, none⟩,
                            [msg], (send_message msg none).2) := by
                        simp [tryCycle, hga, hcr, hps, hsr, send_message, botSendMessage]
                      rw [mainStep_ok s inp _ ht]
                      simp [hN]
                  | some te =>
                      have hN : notifiedResponse s inp = none := by
                        simp [notifiedResponse, hga, hcr, hps, hsr]
                      have ht : tryCycle s inp =
                          .ok (s, [msg], (send_message msg (some te)).2) := by
                        simp [tryCycle, hga, hcr, hps, hsr, send_message, botSendMessage]
                      rw [mainStep_ok s inp _ ht]
                      simp [hN]

/-- C7, as stated, fails: a cycle that completes successfully with an empty
homework list leaves the last-error cache exactly as it was, here `some "e"`
instead of the reset to empty the claim requires. -/
theorem last_error_cache_cex :
    isOkResult (tryCycle ⟨.int 0, some "e"⟩
      ⟨.response 200 (.ok (.dict [("homeworks", .list [])])), none⟩) = true ∧
    (mainStep ⟨.int 0, some "e"⟩
      ⟨.response 200 (.ok (.dict [("homeworks", .list [])])), none⟩).state.last_error_message
      = some "e" :=
  ⟨rfl, rfl⟩

/-- C7 (amended): the cache is cleared exactly on a successfully notified
cycle; any other successful cycle — an empty list or a failed send — leaves it
unchanged, and an error cycle sets it to the error message. -/
theorem last_error_cache_spec (s : LoopState) (inp : CycleInput) :
    (mainStep s inp).state.last_error_message =
      match notifiedResponse s inp, tryCycle s inp with
      | some _, _ => none
      | none, .ok _ => s.last_error_message
      | none, .error e => some ("Сбой в работе программы: " ++ errMsg e) := by
  cases hga : get_api_answer s.current_timestamp inp.http with
  | error e =>
      have hN : notifiedResponse s inp = none := by simp [notifiedResponse, hga]
      have ht : tryCycle s inp = .error e := by simp [tryCycle, hga]
      rw [mainStep_error_cache s inp e ht]
      simp [hN, ht]
  | ok response =>
      cases hcr : check_response response with
      | error e =>
          have hN : notifiedResponse s inp = none := by simp [notifiedResponse, hga, hcr]
          have ht : tryCycle s inp = .error e := by simp [tryCycle, hga, hcr]
          rw [mainStep_error_cache s inp e ht]
          simp [hN, ht]
      | ok homeworks =>
          cases homeworks with
          | nil =>
              have hN : notifiedResponse s inp = none := by simp [notifiedResponse, hga, hcr]
              have ht : tryCycle s inp = .ok (s, [], [⟨.debug, "Нет новых статусов"⟩]) := by
                simp [tryCycle, hga, hcr]
              rw [mainStep_ok s inp _ ht]
              simp [hN, ht]
          | cons hw rest =>
              cases hps : parse_status hw with
              | error e =>
                  have hN : notifiedResponse s inp = none := by
                    simp [notifiedResponse, hga, hcr, hps]
                  have ht : tryCycle s inp = .error e := by simp [tryCycle, hga, hcr, hps]
                  rw [mainStep_error_cache s inp e ht]
                  simp [hN, ht]
              | ok msg =>
                  cases hsr : inp.sendRaised with
                  | none =>
                      have hN : notifiedResponse s inp = some response := by
                        simp [notifiedResponse, hga, hcr, hps, hsr]
                      have ht : tryCycle s inp =
                          .ok (⟨jget response "current_date" s.current_timestamp, none⟩,
                            [msg], (send_message msg none).2) := by
                        simp [tryCycle, hga, hcr, hps, hsr, send_message, botSendMessage]
                      rw [mainStep_ok s inp _ ht]
                      simp [hN, ht]
                  | some te =>
                      have hN : notifiedResponse s inp = none := by
                        simp [notifiedResponse, hga, hcr, hps, hsr]
                      have ht : tryCycle s inp =
                          .ok (s, [msg], (send_message msg (some te)).2) := by
                        simp [tryCycle, hga, hcr, hps, hsr, send_message, botSendMessage]
                      rw [mainStep_ok s inp _ ht]
                      simp [hN, ht]

/-- C8: on a caught error the driver builds `Сбой в работе программы: {error}`,
passes it to the notifier exactly when it differs from the cached last error
message, and logs it at error level in either case. -/
theorem error_cycle_report (s : LoopState) (inp : CycleInput) (e : PyError)
    (h : tryCycle s inp = .error e) :
    (mainStep s inp).sends =
      (if some ("Сбой в работе программы: " ++ errMsg e) ≠ s.last_error_message
       then ["Сбой в работе программы: " ++ errMsg e] else []) ∧
    LogEntry.mk .error ("Сбой в работе программы: " ++ errMsg e) ∈ (mainStep s inp).logs :=
  ⟨mainStep_error_sends s inp e h, mainStep_error_log s inp e h⟩

theorem error_cycle_report_witness :
    (mainStep ⟨.int 0, none⟩ ⟨.netError "boom", none⟩).sends =
      ["Сбой в работе программы: Ошибка при запросе к API: boom"] ∧
    LogEntry.mk .error "Сбой в работе программы: Ошибка при запросе к API: boom"
      ∈ (mainStep ⟨.int 0, none⟩ ⟨.netError "boom", none⟩).logs := by
  have h := error_cycle_report ⟨.int 0, none⟩ ⟨.netError "boom", none⟩
    (.endpointUnavailableError "Ошибка при запросе к API: boom") rfl
  exact ⟨h.1.trans rfl, h.2⟩

/-- C10: an error cycle overwrites the cache with the new error message whether
or not the notification itself went through, so an identical error on the next
cycle is suppressed even though it was never successfully notified. -/
theorem error_cache_update (s : LoopState) (inp inp2 : CycleInput) (e : PyError)
    (h : tryCycle s inp = .error e) :
    (mainStep s inp).state.last_error_message =
      some ("Сбой в работе программы: " ++ errMsg e) ∧
    (tryCycle (mainStep s inp).state inp2 = .error e →
      (mainStep (mainStep s inp).state inp2).sends = []) := by
  have hc := mainStep_error_cache s inp e h
  refine ⟨hc, fun h2 => ?_⟩
  rw [mainStep_error_sends _ inp2 e h2]
  simp [hc]

theorem error_cache_update_witness :
    (mainStep ⟨.int 0, none⟩ ⟨.netError "boom", some (.apiException "tg down")⟩).state.last_error_message
      = some "Сбой в работе программы: Ошибка при запросе к API: boom" ∧
    (mainStep (mainStep ⟨.int 0, none⟩
        ⟨.netError "boom", some (.apiException "tg down")⟩).state
      ⟨.netError "boom", none⟩).sends = [] := by
  have h := error_cache_update ⟨.int 0, none⟩
    ⟨.netError "boom", some (.apiException "tg down")⟩ ⟨.netError "boom", none⟩
    (.endpointUnavailableError "Ошибка при запросе к API: boom") rfl
  exact ⟨h.1, h.2 rfl⟩

lemma mainStep_cursor_int (s : LoopState) (inp : CycleInput)
    (hs : isInt s.current_timestamp = true) (hok : currentDateIntOk inp = true) :
    isInt (mainStep s inp).state.current_timestamp = true := by
  cases hga : get_api_answer s.current_timestamp inp.http with
  | error e =>
      have ht : tryCycle s inp = .error e := by simp [tryCycle, hga]
      rw [mainStep_error_cursor s inp e ht]
      exact hs
  | ok response =>
      cases hcr : check_response response with
      | error e =>
          have ht : tryCycle s inp = .error e := by simp [tryCycle, hga, hcr]
          rw [mainStep_error_cursor s inp e ht]
          exact hs
      | ok homeworks =>
          cases homeworks with
          | nil =>
              have ht : tryCycle s inp = .ok (s, [], [⟨.debug, "Нет новых статусов"⟩]) := by
                simp [tryCycle, hga, hcr]
              rw [mainStep_ok s inp _ ht]
              exact hs
          | cons hw rest =>
              cases hps : parse_status hw with
              | error e =>
                  have ht : tryCycle s inp = .error e := by simp [tryCycle, hga, hcr, hps]
                  rw [mainStep_error_cursor s inp e ht]
                  exact hs
              | ok msg =>
                  cases hsr : inp.sendRaised with
                  | some te =>
                      have ht : tryCycle s inp =
                          .ok (s, [msg], (send_message msg (some te)).2) := by
                        simp [tryCycle, hga, hcr, hps, hsr, send_message, botSendMessage]
                      rw [mainStep_ok s inp _ ht]
                      exact hs
                  | none =>
                      have ht : tryCycle s inp =
                          .ok (⟨jget response "current_date" s.current_timestamp, none⟩,
                            [msg], (send_message msg none).2) := by
                        simp [tryCycle, hga, hcr, hps, hsr, send_message, botSendMessage]
                      rw [mainStep_ok s inp _ ht]
                      obtain ⟨entries, hresp, -⟩ := check_response_ok_shape response _ hcr
                      subst hresp
                      have hhttp := get_api_answer_ok_shape _ _ _ hga
                      cases hl : entries.lookup "current_date" with
                      | none => simpa [jget, hl] using hs
                      | some v =>
                          have hv : isInt v = true := by
                            simpa [currentDateIntOk, hhttp, hl] using hok
                          simpa [jget, hl] using hv

/-- C9, as stated, fails: the loop assigns `current_date` to the cursor with
no type check, so a response whose `current_date` is the string `"oops"` (sent
after a non-empty homework list is successfully notified) leaves the cursor a
string, not an integer. -/
theorem cursor_int_cex :
    isInt (LoopState.mk (.int 5) none).current_timestamp = true ∧
    (mainStep ⟨.int 5, none⟩ ⟨.response 200 (.ok (.dict
        [("homeworks", .list [.dict [("homework_name", .str "X"), ("status", .str "approved")]]),
         ("current_date", .str "oops")])), none⟩).state.current_timestamp = .str "oops" ∧
    isInt (mainStep ⟨.int 5, none⟩ ⟨.response 200 (.ok (.dict
        [("homeworks", .list [.dict [("homework_name", .str "X"), ("status", .str "approved")]]),
         ("current_date", .str "oops")])), none⟩).state.current_timestamp = false :=
  ⟨rfl, rfl, rfl⟩

/-- C9 (amended): the cursor starts as the integer start time, and it stays an
integer throughout the run provided every response's `current_date`, when
present, is an integer — the documented response shape; the code itself never
checks this. -/
theorem cursor_int_invariant (t : Int) (inputs : List CycleInput)
    (h : ∀ inp ∈ inputs, currentDateIntOk inp = true) :
    ∀ s1 ∈ runStates ⟨.int t, none⟩ inputs, isInt s1.current_timestamp = true := by
  suffices H : ∀ (l : List CycleInput) (s : LoopState), isInt s.current_timestamp = true →
      (∀ inp ∈ l, currentDateIntOk inp = true) →
      ∀ s1 ∈ runStates s l, isInt s1.current_timestamp = true by
    exact H inputs ⟨.int t, none⟩ rfl h
  intro l
  induction l with
  | nil =>
      intro s hs _ s1 h1
      simp [runStates] at h1
      subst h1
      exact hs
  | cons inp rest ih =>
      intro s hs hok s1 h1
      simp only [runStates, List.mem_cons] at h1
      rcases h1 with rfl | h1
      · exact hs
      · exact ih (mainStep s inp).state
          (mainStep_cursor_int s inp hs (hok inp (List.mem_cons_self inp rest)))
          (fun i hi => hok i (List.mem_cons_of_mem inp hi)) s1 h1

theorem cursor_int_invariant_witness :
    isInt (mainStep ⟨.int 0, none⟩
      ⟨.response 200 (.ok (.dict [("homeworks", .list []), ("current_date", .int 7)])), none⟩
      ).state.current_timestamp = true := by
  have h := cursor_int_invariant 0
    [⟨.response 200 (.ok (.dict [("homeworks", .list []), ("current_date", .int 7)])), none⟩]
    (by
      intro i hi
      simp at hi
      subst hi
      rfl)
  exact h _ (by simp [runStates])

end HomeworkBot
